import Mathlib

/-!
Verification of the faceless repository's ScenePlan pipeline:
the scene-plan parser (`sceneplan_parser.py`), the world-state machine
(`world_state.py`) and the workflow-graph patcher (`workflow_patcher.py`),
shallowly embedded in Lean with executable definitions translated from the
Python source.
-/

set_option autoImplicit false

/-- JSON values as returned by Python `json.loads`.  The stdlib parser itself
is not repository code; functions that call it take an arbitrary
`loads : String → Option JValue` interpretation parameter (`none` models a
`json.JSONDecodeError`), so everything proved holds for the real parser. -/
inductive JValue where
  | jnull : JValue
  | jbool : Bool → JValue
  | jnum : Rat → JValue
  | jstr : String → JValue
  | jarr : List JValue → JValue
  | jobj : List (String × JValue) → JValue
deriving BEq, Inhabited

/-- `dict.get key` for a parsed JSON object: first binding wins (Python dicts
from `json.loads` have unique keys). -/
def jget (d : List (String × JValue)) (k : String) : Option JValue :=
  (d.find? (fun kv => kv.1 = k)).map (fun kv => kv.2)

/-- `SCENEPLAN_MARKER` from `llm_contract.py` line 6. -/
def SCENEPLAN_MARKER : String := "---SCENEPLAN---"

/-- `DEFAULT_SCENE_APPEND` from `llm_contract.py` lines 7-9. -/
def DEFAULT_SCENE_APPEND : String :=
  "same location, same outfit, subtle change in expression, natural pose continuity"

/-- `DEFAULT_REPLY` from `sceneplan_parser.py` line 8. -/
def DEFAULT_REPLY : String := "..."

/-- Python `str.strip()` at the character level: remove leading and
trailing whitespace. -/
def stripChars (l : List Char) : List Char :=
  List.rdropWhile Char.isWhitespace (l.dropWhile Char.isWhitespace)

/-- Python `s.strip()` with no arguments. -/
def pyStrip (s : String) : String :=
  String.mk (stripChars s.data)

/-- Split a character list at the first occurrence of the pattern `pat`:
`some (before, after)` with the pattern removed, or `none` when `pat` does
not occur. -/
def splitFirst (pat : List Char) : List Char → Option (List Char × List Char)
  | [] => if pat.isPrefixOf ([] : List Char) then some ([], []) else none
  | c :: cs =>
    if pat.isPrefixOf (c :: cs) then some ([], (c :: cs).drop pat.length)
    else (splitFirst pat cs).map (fun pr => (c :: pr.1, pr.2))

/-- Python `s.partition(sep)`: `(head, sep, tail)` split at the first
occurrence of `sep`, or `(s, "", "")` when `sep` does not occur. -/
def pyPartition (s sep : String) : String × String × String :=
  match splitFirst sep.data s.data with
  | some (before, after) => (String.mk before, sep, String.mk after)
  | none => (s, "", "")

/-- Python `SCENEPLAN_MARKER in s` (substring containment), phrased through
the same search primitive as `pyPartition`. -/
def containsMarker (s : String) : Bool :=
  (splitFirst SCENEPLAN_MARKER.data s.data).isSome

/-- `_extract_reply_text` from `sceneplan_parser.py` lines 11-15. -/
def extract_reply_text (raw : String) : String :=
  if raw = "" then ""
  else pyStrip (pyPartition raw SCENEPLAN_MARKER).1

/-- Scanner state of `_find_json_blocks` (`sceneplan_parser.py` lines 18-49).
The source records the `start` index of the currently open block and slices
`text[start : idx + 1]` when it closes; the embedding accumulates the very
same characters in `cur` (`cur = some acc` exactly when a block is open,
i.e. `depth > 0`). -/
structure ScanState where
  blocks : List (List Char)
  cur : Option (List Char)
  depth : Nat
  in_string : Bool
  escape : Bool
deriving BEq, DecidableEq, Inhabited

/-- Append a consumed character to the currently open block, if any
(the positional slice `text[start : idx + 1]` keeps every character between
the braces, including string-literal characters). -/
def ScanState.push (st : ScanState) (ch : Char) : ScanState :=
  { st with cur := st.cur.map (fun acc => acc ++ [ch]) }

/-- One iteration of the `for idx, ch in enumerate(text)` loop of
`_find_json_blocks` (`sceneplan_parser.py` lines 25-47), branch for branch. -/
def scanStep (st : ScanState) (ch : Char) : ScanState :=
  if st.in_string then
    let st' :=
      if st.escape then { st with escape := false }
      else if ch = '\\' then { st with escape := true }
      else if ch = '"' then { st with in_string := false }
      else st
    st'.push ch
  else if ch = '"' then
    ({ st with in_string := true }).push ch
  else if ch = '{' then
    if st.depth = 0 then
      { st with depth := 1, cur := some [ch] }
    else
      ({ st with depth := st.depth + 1 }).push ch
  else if ch = '}' ∧ st.depth > 0 then
    if st.depth = 1 then
      { st with
        depth := 0
        cur := none
        blocks := st.blocks ++ [(st.cur.getD []) ++ [ch]] }
    else
      ({ st with depth := st.depth - 1 }).push ch
  else
    st.push ch

/-- The loop of `_find_json_blocks` over a character list. -/
def scanChars (l : List Char) (st : ScanState) : ScanState :=
  l.foldl scanStep st

/-- Initial scanner state (`sceneplan_parser.py` lines 19-23). -/
def scanInit : ScanState :=
  { blocks := [], cur := none, depth := 0, in_string := false, escape := false }

/-- `_find_json_blocks` from `sceneplan_parser.py` lines 18-49. -/
def find_json_blocks (text : String) : List String :=
  (scanChars text.data scanInit).blocks.map (fun cs => String.mk cs)

/-- `_parse_last_json` from `sceneplan_parser.py` lines 52-60: candidate
blocks are tried in reversed order; a block that fails to parse
(`loads = none`) or parses to a non-dict is skipped. -/
def parse_last_json (loads : String → Option JValue) (text : String) :
    Option (List (String × JValue)) :=
  (find_json_blocks text).reverse.findSome? fun block =>
    match loads block with
    | some (JValue.jobj d) => some d
    | _ => none

/-- The six-field scene record that `parse_sceneplan`
(`sceneplan_parser.py` lines 63-126) attempts to construct and that
`WorldState.apply_sceneplan` (`world_state.py` lines 30-39) consumes.
NOTE: the `ScenePlan` dataclass as declared in `scene_plan.py` lines 9-15
omits the `visual_anchor` field that the parser passes to it; see
`scenePlanDataclassFields` and `parse_sceneplan_py` below. -/
structure ScenePlan where
  reply : String
  scene_append : String
  mood : String := "neutral"
  location : String := "unspecified"
  visual_anchor : String := ""
  change_scene : Bool := false
deriving BEq, DecidableEq, Inhabited

/-- Field-level extraction from a parsed JSON dict
(`sceneplan_parser.py` lines 82-117); `reply0` is the fallback reply
computed from the text before the marker. -/
def sceneplanFromData (d : List (String × JValue)) (reply0 : String) : ScenePlan :=
  { reply :=
      match jget d "reply" with
      | some (JValue.jstr s) => if pyStrip s ≠ "" then pyStrip s else reply0
      | _ => reply0
    scene_append :=
      match jget d "scene_append" with
      | some (JValue.jstr s) => if pyStrip s ≠ "" then pyStrip s else DEFAULT_SCENE_APPEND
      | _ => DEFAULT_SCENE_APPEND
    mood :=
      match jget d "mood" with
      | some (JValue.jstr s) => if pyStrip s ≠ "" then pyStrip s else "neutral"
      | _ => "neutral"
    location :=
      match jget d "location" with
      | some (JValue.jstr s) => if pyStrip s ≠ "" then pyStrip s else ""
      | _ => ""
    visual_anchor :=
      match jget d "visual_anchor" with
      | some (JValue.jstr s) => if pyStrip s ≠ "" then pyStrip s else ""
      | _ => ""
    change_scene := jget d "change_scene" == some (JValue.jbool true) }

/-- The record that `parse_sceneplan` (`sceneplan_parser.py` lines 63-126)
assembles and passes, keyword by keyword, to the `ScenePlan(...)`
constructor on the single return path reached for the given input: the
statements before each `return` compute exactly these values.  The
constructor call itself then raises `TypeError` — the dataclass lacks the
`visual_anchor` field — so this record is never returned to any caller;
the runtime behaviour of the function is `parse_sceneplan_py` below.
`loads` stands for `json.loads`. -/
def parse_sceneplan_record (loads : String → Option JValue) (llm_text : String) : ScenePlan :=
  if llm_text = "" then
    { reply := DEFAULT_REPLY
      scene_append := DEFAULT_SCENE_APPEND
      mood := "neutral"
      location := ""
      visual_anchor := ""
      change_scene := false }
  else
    let p := pyPartition llm_text SCENEPLAN_MARKER
    let data : Option (List (String × JValue)) :=
      if p.2.1 ≠ "" then parse_last_json loads p.2.2 else none
    let reply_text := extract_reply_text llm_text
    let reply := if pyStrip reply_text = "" then DEFAULT_REPLY else pyStrip reply_text
    match data with
    | some d => sceneplanFromData d reply
    | none =>
      { reply := reply
        scene_append := DEFAULT_SCENE_APPEND
        mood := "neutral"
        location := ""
        visual_anchor := ""
        change_scene := false }

/-- Declared fields of the `ScenePlan` dataclass, `scene_plan.py` lines 11-15
(in declaration order).  `visual_anchor` is absent. -/
def scenePlanDataclassFields : List String :=
  ["reply", "scene_append", "mood", "location", "change_scene"]

/-- Keyword arguments passed to `ScenePlan(...)` at each of the three
construction sites of `parse_sceneplan` (`sceneplan_parser.py` lines 65-72,
110-117 and 119-126; all three pass the same keywords). -/
def parseSceneplanCtorKwargs : List String :=
  ["reply", "scene_append", "mood", "location", "visual_anchor", "change_scene"]

/-- A dataclass-generated `init` accepts exactly the declared fields as
keyword arguments; an undeclared keyword raises `TypeError`. -/
def dataclassAccepts (fields kwargs : List String) : Bool :=
  kwargs.all (fun k => fields.contains k)

/-- Runtime-level `parse_sceneplan`: every return path constructs
`ScenePlan(...)` with the keyword list `parseSceneplanCtorKwargs`, so the
call succeeds only if the dataclass accepts those keywords; otherwise the
`TypeError` raised by the generated constructor propagates. -/
def parse_sceneplan_py (loads : String → Option JValue) (llm_text : String) :
    Except String ScenePlan :=
  if dataclassAccepts scenePlanDataclassFields parseSceneplanCtorKwargs then
    Except.ok (parse_sceneplan_record loads llm_text)
  else
    Except.error "TypeError: unexpected keyword argument visual_anchor"

/-- `ChatTurn` from `world_state.py` lines 7-11. -/
structure ChatTurn where
  user_text : String
  assistant_text : String
  scene_plan : ScenePlan
deriving BEq, DecidableEq, Inhabited

/-- `WorldState` from `world_state.py` lines 14-23, with the dataclass
defaults. -/
structure WorldState where
  identity_profile : String := ""
  location : String := "unspecified"
  mood : String := "neutral"
  visual_anchor : String := ""
  last_scene_append : String := ""
  turn_id : Int := 0
  history : List ChatTurn := []
  history_max : Nat := 10
deriving BEq, DecidableEq, Inhabited

/-- `WorldState.apply_sceneplan` from `world_state.py` lines 30-39.
Python truthiness of a `str` field is non-emptiness. -/
def WorldState.apply_sceneplan (s : WorldState) (sceneplan : ScenePlan) : WorldState :=
  let s1 := if sceneplan.mood ≠ "" then { s with mood := sceneplan.mood } else s
  let s2 :=
    if sceneplan.scene_append ≠ "" then
      { s1 with last_scene_append := sceneplan.scene_append }
    else s1
  if sceneplan.change_scene then
    let s3 :=
      if sceneplan.location ≠ "" then { s2 with location := sceneplan.location } else s2
    if sceneplan.visual_anchor ≠ "" then
      { s3 with visual_anchor := sceneplan.visual_anchor }
    else s3
  else s2

/-- Python `lst[-m:]`: for `m = 0` the slice index `-0` is `0`, so the whole
list is returned; for `m ≥ 1` the last `min m (length lst)` elements. -/
def pySliceLast (m : Nat) (l : List ChatTurn) : List ChatTurn :=
  if m = 0 then l else l.drop (l.length - m)

/-- `WorldState.add_turn` from `world_state.py` lines 41-50. -/
def WorldState.add_turn (s : WorldState) (user_text assistant_text : String)
    (scene_plan : ScenePlan) : WorldState :=
  let h := s.history ++
    [{ user_text := pyStrip user_text
       assistant_text := pyStrip assistant_text
       scene_plan := scene_plan }]
  if h.length > s.history_max then
    { s with history := pySliceLast s.history_max h }
  else
    { s with history := h }

/-- Fold a list of `(user_text, assistant_text, plan)` turns into the state
via `add_turn`. -/
def WorldState.add_turns (s : WorldState) (ts : List (String × String × ScenePlan)) :
    WorldState :=
  ts.foldl (fun st t => st.add_turn t.1 t.2.1 t.2.2) s

/-- Node-input values appearing in a ComfyUI workflow graph.  The patcher
only moves these values around, never computes with them, so floats are
carried as exact rationals. -/
inductive PVal where
  | vstr : String → PVal
  | vint : Int → PVal
  | vrat : Rat → PVal
  | vbool : Bool → PVal
  | vnull : PVal
deriving BEq, DecidableEq, Inhabited

/-- A value of the workflow-graph mapping: either a JSON object (a node,
with `_meta.title` defaulting to `""` when `_meta` or `title` is missing,
`class_type` likewise, and an optional `inputs` dict) or a non-dict value,
which every scan in `workflow_patcher.py` skips via
`isinstance(node, dict)`. -/
inductive GNode where
  | node (title : String) (class_type : String) (inputs : Option (List (String × PVal))) : GNode
  | other : GNode
deriving BEq, DecidableEq, Inhabited

/-- A workflow graph: Python `Dict[str, Any]` as an insertion-ordered
association list with unique keys. -/
def Graph : Type := List (String × GNode)

instance : BEq Graph := inferInstanceAs (BEq (List (String × GNode)))
instance : DecidableEq Graph := inferInstanceAs (DecidableEq (List (String × GNode)))
instance : Inhabited Graph := inferInstanceAs (Inhabited (List (String × GNode)))

/-- The `_meta.title` of a graph value: `some` title for a dict node
(`node.get("_meta", \x7b\x7d).get("title", "")`), `none` for a non-dict
value, which every scan skips. -/
def nodeTitle : GNode → Option String
  | GNode.node t _ _ => some t
  | GNode.other => none

/-- `d.get(k)` on a Python dict. -/
def dictGet (d : List (String × PVal)) (k : String) : Option PVal :=
  (d.find? (fun kv => kv.1 = k)).map (fun kv => kv.2)

/-- `k in d` on a Python dict. -/
def dictHas (d : List (String × PVal)) (k : String) : Bool :=
  d.any (fun kv => kv.1 = k)

/-- `d[k] = v` on a Python dict: overwrite in place if the key exists,
otherwise append the new key at the end (insertion order). -/
def dictSet (d : List (String × PVal)) (k : String) (v : PVal) : List (String × PVal) :=
  if dictHas d k then
    d.map (fun kv => if kv.1 = k then (k, v) else kv)
  else
    d ++ [(k, v)]

/-- `g[id]` lookup on the graph. -/
def graphGet (g : Graph) (id : String) : Option GNode :=
  (List.find? (fun kv => kv.1 = id) g).map (fun kv => kv.2)

/-- In-place mutation of the node stored at `id` (`g[id]... = ...`):
the key set of the graph is untouched. -/
def graphSet (g : Graph) (id : String) (f : GNode → GNode) : Graph :=
  List.map (fun kv => if kv.1 = id then (kv.1, f kv.2) else kv) g

/-- The node ids of a graph, in order. -/
def graphKeys (g : Graph) : List String :=
  List.map Prod.fst g

/-- `GenParams` from `models.py` lines 5-14 (floats as exact rationals). -/
structure GenParams where
  seed : Option Int := none
  steps : Int := 8
  cfg : Rat := (11 : Rat) / 5
  sampler : String := "euler_ancestral"
  scheduler : String := "simple"
  quality_tags : String := "masterpiece, best quality, high quality, detailed"
  negative : String := "worst aesthetic, worst quality, low quality, bad quality, lowres, signature, username, logo, bad hands, mutated hands, ambiguous form, feral"
  checkpoint : String := ""
deriving BEq, DecidableEq, Inhabited

/-- `CharacterParams` from `models.py` lines 17-27.  `__post_init__` copies
`base_prompt` into an empty `visual_base`; the patcher reads only the fields
below. -/
structure CharacterParams where
  visual_base : String := ""
  identity_profile : String := ""
  lora_name : String := ""
  lora_strength : Rat := 0
deriving BEq, DecidableEq, Inhabited

/-- `build_positive_prompt` from `prompt_builder.py` lines 4-9. -/
def build_positive_prompt (quality visual_base scene_append : String) : String :=
  let parts := [pyStrip quality, pyStrip visual_base, pyStrip scene_append].filter (fun v => v ≠ "")
  if parts = [] then "high quality, detailed" else String.intercalate ", " parts

/-- `find_node_by_title` from `workflow_patcher.py` lines 9-16: first match
in iteration order; non-dict values are skipped. -/
def find_node_by_title (g : Graph) (title : String) : Option String :=
  List.findSome?
    (fun kv => if nodeTitle kv.2 = some title then some kv.1 else none) g

/-- `detect_cliptext_nodes` from `workflow_patcher.py` lines 19-37: the loop
never breaks, so the LAST matching node wins for each of the two titles. -/
def detect_cliptext_nodes (g : Graph) : Option String × Option String :=
  List.foldl
    (fun acc kv =>
      if nodeTitle kv.2 = some "__PROMPT_POS__" then (some kv.1, acc.2)
      else if nodeTitle kv.2 = some "__PROMPT_NEG__" then (acc.1, some kv.1)
      else acc)
    (none, none) g

/-- Python truthiness of an `Optional[str]` node id (`if neg_id and ...`):
`None` and `""` are falsy. -/
def optTruthy : Option String → Bool
  | none => false
  | some s => s ≠ ""

/-- Python falsiness of a node-input value (`value or ""`). -/
def pyFalsyPVal : PVal → Bool
  | PVal.vstr s => s = ""
  | PVal.vint n => n = 0
  | PVal.vrat q => q = 0
  | PVal.vbool b => b = false
  | PVal.vnull => true

/-- Python `value or ""`. -/
def pyOrEmptyStr (v : PVal) : PVal :=
  if pyFalsyPVal v then PVal.vstr "" else v

/-- `node.get("class_type")` for an optional graph entry. -/
def nodeClassType : Option GNode → Option String
  | some (GNode.node _ ct _) => some ct
  | _ => none

/-- Write one key of a node's `inputs` dict, leaving any other node shape
alone. -/
def setInput (k : String) (v : PVal) : GNode → GNode
  | GNode.node t ct (some d) => GNode.node t ct (some (dictSet d k v))
  | n => n

/-- `g[id]["inputs"][k] = v`: fails with `KeyError` when the node has no
`inputs` key (the unguarded `["inputs"]` indexings in
`workflow_patcher.py` lines 69, 74, 79-81, 85-86, 93). -/
def writeInput (g : Graph) (id k : String) (v : PVal) : Except String Graph :=
  match graphGet g id with
  | some (GNode.node _ _ (some _)) => Except.ok (graphSet g id (setInput k v))
  | some (GNode.node _ _ none) => Except.error "KeyError: inputs"
  | _ => Except.error "AttributeError: not a dict"

/-- Seed resolution of `workflow_patcher.py` lines 104-109: a fresh random
draw when `seed` is `None`, the fixed seed verbatim otherwise. -/
def resolveSeed (seed : Option Int) (freshSeed : Int) : Int :=
  match seed with
  | none => freshSeed
  | some s => s

/-- The positive-prompt block of `patch_workflow`
(`workflow_patcher.py` lines 54-69): read the existing text, pick the base
description, compose the final positive prompt and write it into the
`__PROMPT_POS__` node. -/
def patchPositive (g : Graph) (char_params : CharacterParams)
    (append_text : String) (gen_params : GenParams) (pos_id : String) :
    Except String Graph := do
  let current : PVal :=
    pyOrEmptyStr
      ((dictGet (match graphGet g pos_id with
        | some (GNode.node _ _ (some d)) => d
        | _ => []) "text").getD (PVal.vstr ""))
  let base : String ←
    if char_params.visual_base ≠ "" then
      pure (pyStrip char_params.visual_base)
    else
      match current with
      | PVal.vstr s => pure s
      | _ => throw "AttributeError: strip on non-str"
  let extra := pyStrip append_text
  let quality := pyStrip gen_params.quality_tags
  writeInput g pos_id "text" (PVal.vstr (build_positive_prompt quality base extra))

/-- The negative-prompt block (`workflow_patcher.py` lines 71-74). -/
def patchNegative (g : Graph) (neg_id : Option String) (gen_params : GenParams) :
    Except String Graph :=
  match neg_id with
  | some nid =>
    if nid ≠ "" ∧ gen_params.negative ≠ "" then
      writeInput g nid "text" (PVal.vstr gen_params.negative)
    else pure g
  | none => pure g

/-- The character-LoRA block (`workflow_patcher.py` lines 76-89). -/
def patchLora (g : Graph) (char_params : CharacterParams) : Except String Graph :=
  match find_node_by_title g "__LORA_CHARACTER__" with
  | some lid =>
    if lid ≠ "" ∧ nodeClassType (graphGet g lid) = some "LoraLoader" then
      if char_params.lora_name ≠ "" then do
        let g ← writeInput g lid "lora_name" (PVal.vstr char_params.lora_name)
        let g ← writeInput g lid "strength_model" (PVal.vrat char_params.lora_strength)
        writeInput g lid "strength_clip" (PVal.vrat char_params.lora_strength)
      else do
        let g ← writeInput g lid "strength_model" (PVal.vrat 0)
        writeInput g lid "strength_clip" (PVal.vrat 0)
    else pure g
  | none => pure g

/-- The checkpoint block (`workflow_patcher.py` lines 91-96). -/
def patchCheckpoint (g : Graph) (gen_params : GenParams) : Except String Graph :=
  if gen_params.checkpoint ≠ "" then
    match find_node_by_title g "__CHECKPOINT_BASE__" with
    | some cid =>
      if cid ≠ "" ∧ nodeClassType (graphGet g cid) = some "CheckpointLoaderSimple" then
        writeInput g cid "ckpt_name" (PVal.vstr gen_params.checkpoint)
      else pure g
    | none => pure g
  else pure g

/-- The sampler block (`workflow_patcher.py` lines 98-122): `inputs` is the
dict stored on the node, mutated in place, so when the node has no
`inputs` key the guarded writes go to a fresh `\x7b\x7d` and the graph is
unchanged; each field is overwritten only when it already exists.  This
block never raises. -/
def patchSampler (g : Graph) (gen_params : GenParams) (freshSeed : Int) : Graph :=
  match find_node_by_title g "__SAMPLER_MAIN__" with
  | some sid =>
    if sid ≠ "" ∧ (nodeClassType (graphGet g sid) = some "KSampler" ∨
        nodeClassType (graphGet g sid) = some "KSamplerAdvanced") then
      match graphGet g sid with
      | some (GNode.node _ _ (some d)) =>
        let new_seed : Int := resolveSeed gen_params.seed freshSeed
        let d := if dictHas d "seed" then dictSet d "seed" (PVal.vint new_seed) else d
        let d := if dictHas d "steps" then dictSet d "steps" (PVal.vint gen_params.steps) else d
        let d := if dictHas d "cfg" then dictSet d "cfg" (PVal.vrat gen_params.cfg) else d
        let d :=
          if dictHas d "sampler_name" then
            dictSet d "sampler_name" (PVal.vstr gen_params.sampler)
          else d
        let d :=
          if dictHas d "scheduler" then
            dictSet d "scheduler" (PVal.vstr gen_params.scheduler)
          else d
        graphSet g sid (fun n =>
          match n with
          | GNode.node t ct (some _) => GNode.node t ct (some d)
          | n' => n')
      | _ => g
    else g
  | none => g

/-- `patch_workflow` from `workflow_patcher.py` lines 40-124, as the
sequence of its five patch blocks.
`g = json.loads(json.dumps(prompt_graph))` takes a deep copy, so in the
embedding the graph argument is simply passed by value and every mutation
produces a new graph; the caller's template is never written to.
`freshSeed` stands for the value `random.randint(1, 2**31 - 1)` returns on
this invocation (line 104); it is consulted only when `gen_params.seed` is
`None`.  Exceptions (`raise ValueError`, uncaught `KeyError`) are the
`Except.error` branch. -/
def patch_workflow (prompt_graph : Graph) (char_params : CharacterParams)
    (append_text : String) (gen_params : GenParams) (freshSeed : Int) :
    Except String Graph := do
  let g := prompt_graph
  let ids := detect_cliptext_nodes g
  match ids.1 with
  | none => throw "No __PROMPT_POS__ node found."
  | some pos_id =>
    let g ← patchPositive g char_params append_text gen_params pos_id
    let g ← patchNegative g ids.2 gen_params
    let g ← patchLora g char_params
    let g ← patchCheckpoint g gen_params
    return patchSampler g gen_params freshSeed

/-- A sample scene record with every field populated, used by concrete
witnesses. -/
def samplePlan : ScenePlan :=
  { reply := "hello"
    scene_append := "soft light"
    mood := "happy"
    location := "cafe"
    visual_anchor := "warm cafe, window light"
    change_scene := false }

/-- The sample record with an explicit scene change. -/
def samplePlanChange : ScenePlan :=
  { samplePlan with change_scene := true }

/-- Run the scanner's string-mode rules (`sceneplan_parser.py` lines 26-33)
over a character list, starting with the given escape flag: `some e` when
the scanner is still inside the string literal afterwards with escape flag
`e`, `none` when some unescaped quote ended the literal. -/
def strRun : List Char → Bool → Option Bool
  | [], e => some e
  | c :: cs, e =>
    if e then strRun cs false
    else if c = '\\' then strRun cs true
    else if c = '"' then none
    else strRun cs false

/-- The characters `w` form the interior of a well-formed string literal:
scanning them in string mode never leaves the string and ends with no
pending escape.  Such a `w` may freely contain braces and escaped quotes. -/
def staysInString (w : List Char) : Bool :=
  strRun w false == some false

/-- Some dict node of the graph carries the given `_meta.title`. -/
def hasTitle (g : Graph) (t : String) : Bool :=
  g.any (fun kv => nodeTitle kv.2 == some t)

/-- The `seed` input of the node stored at `id`, if any. -/
def seedInputOf (g : Graph) (id : String) : Option PVal :=
  match graphGet g id with
  | some (GNode.node _ _ (some d)) => dictGet d "seed"
  | _ => none

/-- First sample JSON block for the two-block witness. -/
def sampleBlock1 : String := "\x7b\"reply\":\"one\"\x7d"

/-- Second sample JSON block for the two-block witness. -/
def sampleBlock2 : String := "\x7b\"reply\":\"two\"\x7d"

/-- A model output containing the marker followed by two sequential
balanced JSON objects. -/
def sampleTwoBlockText : String :=
  "hi ---SCENEPLAN--- " ++ sampleBlock1 ++ sampleBlock2

/-- A concrete `json.loads` interpretation giving both sample blocks a
JSON-object parse. -/
def sampleLoads : String → Option JValue := fun s =>
  if s = sampleBlock1 then some (JValue.jobj [("reply", JValue.jstr "one")])
  else if s = sampleBlock2 then some (JValue.jobj [("reply", JValue.jstr "two")])
  else none

/-- A template with no `__PROMPT_POS__` node. -/
def sampleGraphNoPos : Graph :=
  [("1", GNode.node "__SAMPLER_MAIN__" "KSampler" (some [("seed", PVal.vint 0)]))]

/-- A template with only a `__PROMPT_POS__` node. -/
def sampleGraphPos : Graph :=
  [("6", GNode.node "__PROMPT_POS__" "CLIPTextEncode" (some [("text", PVal.vstr "base prompt")]))]

/-- A template with a `__PROMPT_POS__` node and a `__SAMPLER_MAIN__`
KSampler node whose inputs include a `seed` field. -/
def sampleGraphPosSampler : Graph :=
  [("3", GNode.node "__SAMPLER_MAIN__" "KSampler"
      (some [("seed", PVal.vint 0), ("steps", PVal.vint 20)])),
   ("6", GNode.node "__PROMPT_POS__" "CLIPTextEncode" (some [("text", PVal.vstr "base prompt")]))]

/-- Stripping is idempotent: Python `s.strip().strip() == s.strip()`. -/
theorem stripChars_idem (l : List Char) : stripChars (stripChars l) = stripChars l := by
  unfold stripChars
  have hmself :
      (l.dropWhile Char.isWhitespace).dropWhile Char.isWhitespace =
        l.dropWhile Char.isWhitespace :=
    List.dropWhile_idempotent _ _
  have hr :
      ((l.dropWhile Char.isWhitespace).rdropWhile Char.isWhitespace).dropWhile
          Char.isWhitespace =
        (l.dropWhile Char.isWhitespace).rdropWhile Char.isWhitespace := by
    rw [List.dropWhile_eq_self_iff]
    intro h0
    have hpre :
        (l.dropWhile Char.isWhitespace).rdropWhile Char.isWhitespace <+:
          l.dropWhile Char.isWhitespace :=
      List.rdropWhile_prefix _ _
    have hlen : 0 < (l.dropWhile Char.isWhitespace).length :=
      lt_of_lt_of_le h0 hpre.length_le
    have hget := List.IsPrefix.getElem hpre (show 0 < _ from h0)
    simp only [List.get_eq_getElem, hget]
    exact (List.dropWhile_eq_self_iff.mp hmself) hlen
  rw [hr, List.rdropWhile_idempotent]

/-- String-level corollary of `stripChars_idem`. -/
theorem pyStrip_idem (s : String) : pyStrip (pyStrip s) = pyStrip s := by
  unfold pyStrip
  rw [show (String.mk (stripChars s.data)).data = stripChars s.data from rfl,
    stripChars_idem]

/-- Claim C1: when `change_scene` is false, `apply_sceneplan` leaves
`location` and `visual_anchor` exactly as they were, regardless of the
plan's `location` and `visual_anchor` values; only `mood` and
`last_scene_append` may change, and each only when the corresponding plan
field is non-empty; every other state field is untouched. -/
theorem claim_C1_change_scene_false_locks_scene
    (s : WorldState) (p : ScenePlan) (h : p.change_scene = false) :
    (s.apply_sceneplan p).location = s.location ∧
    (s.apply_sceneplan p).visual_anchor = s.visual_anchor ∧
    (s.apply_sceneplan p).mood = (if p.mood = "" then s.mood else p.mood) ∧
    (s.apply_sceneplan p).last_scene_append =
      (if p.scene_append = "" then s.last_scene_append else p.scene_append) ∧
    (s.apply_sceneplan p).identity_profile = s.identity_profile ∧
    (s.apply_sceneplan p).turn_id = s.turn_id ∧
    (s.apply_sceneplan p).history = s.history ∧
    (s.apply_sceneplan p).history_max = s.history_max := by
  unfold WorldState.apply_sceneplan
  rw [h]
  by_cases h1 : p.mood = "" <;> by_cases h2 : p.scene_append = "" <;>
    simp [h1, h2]

/-- Concrete instance of claim C1 at a fully populated plan. -/
theorem claim_C1_witness :
    samplePlan.change_scene = false ∧
    (({} : WorldState).apply_sceneplan samplePlan).location = ({} : WorldState).location ∧
    (({} : WorldState).apply_sceneplan samplePlan).visual_anchor =
      ({} : WorldState).visual_anchor :=
  ⟨rfl,
    (claim_C1_change_scene_false_locks_scene {} samplePlan rfl).1,
    (claim_C1_change_scene_false_locks_scene {} samplePlan rfl).2.1⟩

/-- Claim C3: with `change_scene` true, a non-empty plan `visual_anchor` is
copied verbatim into the state, and an empty plan `visual_anchor` leaves the
state anchor unchanged. -/
theorem claim_C3_change_scene_true_anchor
    (s : WorldState) (p : ScenePlan) (h : p.change_scene = true) :
    (p.visual_anchor ≠ "" → (s.apply_sceneplan p).visual_anchor = p.visual_anchor) ∧
    (p.visual_anchor = "" → (s.apply_sceneplan p).visual_anchor = s.visual_anchor) := by
  unfold WorldState.apply_sceneplan
  rw [h]
  by_cases h1 : p.mood = "" <;> by_cases h2 : p.scene_append = "" <;>
    by_cases h3 : p.location = "" <;> by_cases h4 : p.visual_anchor = "" <;>
      simp [h1, h2, h3, h4]

/-- Concrete instance of claim C3 at a plan with a non-empty anchor. -/
theorem claim_C3_witness :
    samplePlanChange.change_scene = true ∧
    (({} : WorldState).apply_sceneplan samplePlanChange).visual_anchor =
      "warm cafe, window light" :=
  ⟨rfl, (claim_C3_change_scene_true_anchor {} samplePlanChange rfl).1 (by decide)⟩

/-- Claim C2: the spec asserts `parse_sceneplan` never raises and always
returns a ScenePlan with non-empty `reply` and `scene_append`.  REFUTED by
the code: every return path of `parse_sceneplan` calls
`ScenePlan(..., visual_anchor=..., ...)`, but the `ScenePlan` dataclass of
`scene_plan.py` lines 9-15 declares no `visual_anchor` field, so the
generated constructor rejects the keyword and every call of
`parse_sceneplan` raises `TypeError`, for every input string and every
behaviour of `json.loads`. -/
theorem claim_C2_parse_sceneplan_always_raises
    (loads : String → Option JValue) (llm_text : String) :
    parse_sceneplan_py loads llm_text =
      Except.error "TypeError: unexpected keyword argument visual_anchor" := rfl

/-- Claim C4: the spec asserts that for marker-less input `parse_sceneplan`
returns a ScenePlan whose `reply` is the trimmed input (or the default
placeholder when that is empty), whose `scene_append` is the canonical
default phrase and whose `change_scene` is false.  REFUTED at every such
input by the constructor bug of claim C2: the call raises `TypeError`
instead of returning anything.  The first conjunct evaluates the function
at every input of the claim; the remaining conjunct records that the
keyword values handed to the rejected `ScenePlan(...)` call are exactly
the claimed ones, so the claim describes the clear intent and the
dataclass missing `visual_anchor` is the slip. -/
theorem claim_C4_no_marker_typeerror
    (loads : String → Option JValue) (text : String)
    (h : containsMarker text = false) :
    parse_sceneplan_py loads text =
      Except.error "TypeError: unexpected keyword argument visual_anchor" ∧
    parse_sceneplan_record loads text =
      { reply := if pyStrip text = "" then DEFAULT_REPLY else pyStrip text
        scene_append := DEFAULT_SCENE_APPEND
        mood := "neutral"
        location := ""
        visual_anchor := ""
        change_scene := false } := by
  refine ⟨rfl, ?_⟩
  have hs : splitFirst SCENEPLAN_MARKER.data text.data = none := by
    unfold containsMarker at h
    cases hs : splitFirst SCENEPLAN_MARKER.data text.data with
    | none => rfl
    | some pr => rw [hs] at h; simp at h
  by_cases he : text = ""
  · subst he
    simp only [parse_sceneplan_record]
    rfl
  · have hp : pyPartition text SCENEPLAN_MARKER = (text, "", "") := by
      unfold pyPartition
      rw [hs]
    have hert : extract_reply_text text = pyStrip text := by
      unfold extract_reply_text
      rw [if_neg he, hp]
    unfold parse_sceneplan_record
    rw [if_neg he]
    simp only [hp, hert, pyStrip_idem]
    simp

/-- Concrete instance of claim C4 at a marker-free input: the call raises,
and the record offered to the rejected constructor carries the claimed
values. -/
theorem claim_C4_witness :
    containsMarker "  just chatting  " = false ∧
    parse_sceneplan_py (fun _ => none) "  just chatting  " =
      Except.error "TypeError: unexpected keyword argument visual_anchor" ∧
    parse_sceneplan_record (fun _ => none) "  just chatting  " =
      { reply := "just chatting"
        scene_append := DEFAULT_SCENE_APPEND
        mood := "neutral"
        location := ""
        visual_anchor := ""
        change_scene := false } :=
  ⟨by decide,
    (claim_C4_no_marker_typeerror (fun _ => none) "  just chatting  " (by decide)).1,
    by
      rw [(claim_C4_no_marker_typeerror (fun _ => none) "  just chatting  "
        (by decide)).2]
      decide⟩

/-- One `add_turn` rewrites the history to the last `history_max` entries of
the appended history, provided the bound is at least 1 (so that the Python
slice `[-history_max:]` really keeps the last `history_max` elements). -/
theorem add_turn_history_eq (s : WorldState) (u a : String) (p : ScenePlan)
    (h : 1 ≤ s.history_max) :
    (s.add_turn u a p).history =
      (s.history ++ [(⟨pyStrip u, pyStrip a, p⟩ : ChatTurn)]).drop
        ((s.history ++ [(⟨pyStrip u, pyStrip a, p⟩ : ChatTurn)]).length - s.history_max) := by
  simp only [WorldState.add_turn]
  split
  · unfold pySliceLast
    rw [if_neg (by omega)]
  · rename_i hlen
    have h0 : (s.history ++ [(⟨pyStrip u, pyStrip a, p⟩ : ChatTurn)]).length -
        s.history_max = 0 := by
      omega
    rw [h0, List.drop_zero]

/-- `add_turn` never changes the bound itself. -/
theorem add_turn_history_max (s : WorldState) (u a : String) (p : ScenePlan) :
    (s.add_turn u a p).history_max = s.history_max := by
  simp only [WorldState.add_turn]
  split <;> rfl

/-- Keeping the last `n` elements commutes with later appends. -/
theorem drop_last_append {α : Type} (n : Nat) (a l : List α) :
    (a.drop (a.length - n) ++ l).drop ((a.drop (a.length - n) ++ l).length - n) =
      (a ++ l).drop ((a ++ l).length - n) := by
  by_cases hn : a.length ≤ n
  · rw [Nat.sub_eq_zero_of_le hn, List.drop_zero]
  · have hk : a.length - (a.length - n) = n := by omega
    have hd : a.length - n ≤ a.length := by omega
    rw [List.length_append, List.length_append, List.length_drop, hk]
    rw [show n + l.length - n = l.length from by omega]
    rw [show a.length + l.length - n = (a.length - n) + l.length from by omega]
    rw [← List.drop_append_of_le_length hd]
    rw [← List.drop_drop]

/-- Folding `add_turn` over a list of turns, starting from a state whose
history already fits the bound, keeps exactly the last `history_max`
recorded turns. -/
theorem add_turns_history (ts : List (String × String × ScenePlan)) (s : WorldState)
    (hmax : 1 ≤ s.history_max) (hfit : s.history.length ≤ s.history_max) :
    (s.add_turns ts).history =
      (s.history ++ ts.map (fun t => (⟨pyStrip t.1, pyStrip t.2.1, t.2.2⟩ : ChatTurn))).drop
        ((s.history ++
          ts.map (fun t => (⟨pyStrip t.1, pyStrip t.2.1, t.2.2⟩ : ChatTurn))).length -
          s.history_max) ∧
    (s.add_turns ts).history_max = s.history_max := by
  induction ts generalizing s with
  | nil =>
    refine ⟨?_, rfl⟩
    simp only [WorldState.add_turns, List.foldl_nil, List.map_nil, List.append_nil]
    rw [Nat.sub_eq_zero_of_le hfit, List.drop_zero]
  | cons t ts ih =>
    have hstep := add_turn_history_eq s t.1 t.2.1 t.2.2 hmax
    have hmax' := add_turn_history_max s t.1 t.2.1 t.2.2
    have hfit' : (s.add_turn t.1 t.2.1 t.2.2).history.length ≤
        (s.add_turn t.1 t.2.1 t.2.2).history_max := by
      rw [hstep, hmax', List.length_drop]
      omega
    have hih := ih (s.add_turn t.1 t.2.1 t.2.2)
      (by rw [hmax']; exact hmax) hfit'
    have hfold : (s.add_turns (t :: ts)) = ((s.add_turn t.1 t.2.1 t.2.2).add_turns ts) := rfl
    refine ⟨?_, by rw [hfold, hih.2, hmax']⟩
    rw [hfold, hih.1, hmax', hstep]
    rw [drop_last_append]
    rw [List.map_cons, ← List.append_cons]

/-- Claim C7 counterexample: the claim "the length of `history` never
exceeds the bound `history_max`" fails at bound `0`: Python
`history[-0:]` is `history[0:]`, the whole list, so one `add_turn` on an
empty history with `history_max = 0` leaves one stored turn. -/
theorem claim_C7_counterexample :
    (({ history_max := 0 } : WorldState).add_turn "u" "a" samplePlan).history.length >
      ({ history_max := 0 } : WorldState).history_max := by decide

/-- Claim C7 (amended: for bounds `history_max ≥ 1`; with bound `0` the
slice `history[-0:]` keeps everything, see the counterexample): one
`add_turn` never leaves more than `history_max` turns, and starting from an
empty history with bound `N ≥ 1`, inserting `N + 5` turns leaves exactly
the most recent `N` turns in oldest-first insertion order. -/
theorem claim_C7_history_bounded :
    (∀ (s : WorldState) (u a : String) (p : ScenePlan), 1 ≤ s.history_max →
      (s.add_turn u a p).history.length ≤ s.history_max) ∧
    (∀ (N : Nat) (s : WorldState) (ts : List (String × String × ScenePlan)),
      1 ≤ N → s.history = [] → s.history_max = N → ts.length = N + 5 →
      (s.add_turns ts).history =
        (ts.map (fun t => (⟨pyStrip t.1, pyStrip t.2.1, t.2.2⟩ : ChatTurn))).drop 5) := by
  constructor
  · intro s u a p h
    rw [add_turn_history_eq s u a p h, List.length_drop]
    omega
  · intro N s ts hN hhist hmax hlen
    have h := (add_turns_history ts s (by omega) (by rw [hhist]; simp)).1
    rw [h, hhist, List.nil_append]
    congr 1
    rw [List.length_map, hlen, hmax]
    omega

/-- Concrete instance of the amended claim C7: bound 1, six inserted turns,
only the last one remains. -/
theorem claim_C7_witness :
    (1 : Nat) ≤ 1 ∧
    (({ history := [], history_max := 1 } : WorldState).add_turns
        [("a", "b", samplePlan), ("c", "d", samplePlan), ("e", "f", samplePlan),
         ("g", "h", samplePlan), ("i", "j", samplePlan), ("k", "l", samplePlan)]).history =
      ([("a", "b", samplePlan), ("c", "d", samplePlan), ("e", "f", samplePlan),
        ("g", "h", samplePlan), ("i", "j", samplePlan), ("k", "l", samplePlan)].map
        (fun t => (⟨pyStrip t.1, pyStrip t.2.1, t.2.2⟩ : ChatTurn))).drop 5 :=
  ⟨by decide,
    claim_C7_history_bounded.2 1 { history := [], history_max := 1 }
      [("a", "b", samplePlan), ("c", "d", samplePlan), ("e", "f", samplePlan),
       ("g", "h", samplePlan), ("i", "j", samplePlan), ("k", "l", samplePlan)]
      (by decide) rfl rfl (by decide)⟩

/-- Claim C5: the spec asserts that with two sequential balanced JSON
objects after the marker, `parse_sceneplan` takes its field values from
the second (last) block only, blocks being tried last-to-first.  The
block selection itself is real and correct: `parse_last_json` does return
the second object, independently of how the first block parses (an unused
hypothesis here).  But the claim about the result of `parse_sceneplan` is
REFUTED by the constructor bug of claim C2: the function raises
`TypeError` at every such input instead of returning.  The last conjunct
records that the record handed to the rejected `ScenePlan(...)` call is a
function of the second object alone. -/
theorem claim_C5_last_block_typeerror
    (loads : String → Option JValue) (text b1 b2 : String)
    (d1 d2 : List (String × JValue))
    (hm : (pyPartition text SCENEPLAN_MARKER).2.1 = SCENEPLAN_MARKER)
    (hb : find_json_blocks (pyPartition text SCENEPLAN_MARKER).2.2 = [b1, b2])
    (h1 : loads b1 = some (JValue.jobj d1))
    (h2 : loads b2 = some (JValue.jobj d2)) :
    parse_sceneplan_py loads text =
      Except.error "TypeError: unexpected keyword argument visual_anchor" ∧
    parse_last_json loads (pyPartition text SCENEPLAN_MARKER).2.2 = some d2 ∧
    parse_sceneplan_record loads text =
      sceneplanFromData d2
        (if pyStrip (extract_reply_text text) = "" then DEFAULT_REPLY
         else pyStrip (extract_reply_text text)) := by
  have hM : SCENEPLAN_MARKER ≠ "" := by decide
  have hne : text ≠ "" := by
    intro he
    subst he
    rw [show pyPartition "" SCENEPLAN_MARKER = ("", "", "") from rfl] at hm
    exact hM hm.symm
  have hplj : parse_last_json loads (pyPartition text SCENEPLAN_MARKER).2.2 = some d2 := by
    unfold parse_last_json
    rw [hb]
    simp [h2]
  refine ⟨rfl, hplj, ?_⟩
  unfold parse_sceneplan_record
  rw [if_neg hne]
  dsimp only
  rw [if_pos (show (pyPartition text SCENEPLAN_MARKER).2.1 ≠ "" from by rw [hm]; exact hM)]
  rw [hplj]

/-- Concrete instance of claim C5: two blocks after the marker, both valid
JSON objects; the call raises, the selection takes the second object, and
the attempted record is built from it. -/
theorem claim_C5_witness :
    (pyPartition sampleTwoBlockText SCENEPLAN_MARKER).2.1 = SCENEPLAN_MARKER ∧
    find_json_blocks (pyPartition sampleTwoBlockText SCENEPLAN_MARKER).2.2 =
      [sampleBlock1, sampleBlock2] ∧
    parse_sceneplan_py sampleLoads sampleTwoBlockText =
      Except.error "TypeError: unexpected keyword argument visual_anchor" ∧
    parse_last_json sampleLoads
        (pyPartition sampleTwoBlockText SCENEPLAN_MARKER).2.2 =
      some [("reply", JValue.jstr "two")] ∧
    parse_sceneplan_record sampleLoads sampleTwoBlockText =
      sceneplanFromData [("reply", JValue.jstr "two")]
        (if pyStrip (extract_reply_text sampleTwoBlockText) = "" then DEFAULT_REPLY
         else pyStrip (extract_reply_text sampleTwoBlockText)) :=
  ⟨by decide, by decide,
    (claim_C5_last_block_typeerror sampleLoads sampleTwoBlockText sampleBlock1
      sampleBlock2 [("reply", JValue.jstr "one")] [("reply", JValue.jstr "two")]
      (by decide) (by decide) rfl rfl).1,
    (claim_C5_last_block_typeerror sampleLoads sampleTwoBlockText sampleBlock1
      sampleBlock2 [("reply", JValue.jstr "one")] [("reply", JValue.jstr "two")]
      (by decide) (by decide) rfl rfl).2.1,
    (claim_C5_last_block_typeerror sampleLoads sampleTwoBlockText sampleBlock1
      sampleBlock2 [("reply", JValue.jstr "one")] [("reply", JValue.jstr "two")]
      (by decide) (by decide) rfl rfl).2.2⟩

/-- Scanning characters while inside a string literal only appends them to
the currently open block: depth, completed blocks and string mode are
untouched, and the escape flag follows `strRun`. -/
theorem scanChars_in_string (w : List Char) :
    ∀ (st : ScanState) (e' : Bool), st.in_string = true →
      strRun w st.escape = some e' →
      scanChars w st = { st with cur := st.cur.map (fun acc => acc ++ w), escape := e' } := by
  induction w with
  | nil =>
    intro st e' hs hr
    simp only [strRun, Option.some.injEq] at hr
    subst hr
    simp [scanChars]
  | cons c cs ih =>
    intro st e' hs hr
    have hstep : scanChars (c :: cs) st = scanChars cs (scanStep st c) := rfl
    rw [hstep]
    by_cases he : st.escape = true
    · have hr' : strRun cs false = some e' := by
        simp only [strRun, he, if_pos] at hr
        exact hr
      have hsc : scanStep st c =
          { st with escape := false, cur := st.cur.map (fun acc => acc ++ [c]) } := by
        simp [scanStep, hs, he, ScanState.push]
      rw [hsc]
      rw [ih { st with escape := false, cur := st.cur.map (fun acc => acc ++ [c]) } e'
        (by simp [hs]) (by simpa using hr')]
      simp [Option.map_map]
      ext acc
      simp [Function.comp]
    · have he' : st.escape = false := by simpa using he
      by_cases hc1 : c = '\\'
      · have hr' : strRun cs true = some e' := by
          simp only [strRun, he', hc1, if_neg, if_pos, Bool.false_eq_true, ite_false] at hr
          simpa [strRun] using hr
        have hsc : scanStep st c =
            { st with escape := true, cur := st.cur.map (fun acc => acc ++ [c]) } := by
          simp [scanStep, hs, he', hc1, ScanState.push]
        rw [hsc]
        rw [ih { st with escape := true, cur := st.cur.map (fun acc => acc ++ [c]) } e'
          (by simp [hs]) (by simpa using hr')]
        simp [Option.map_map]
        ext acc
        simp [Function.comp]
      · by_cases hc2 : c = '"'
        · exfalso
          simp [strRun, he', hc1, hc2] at hr
        · have hr' : strRun cs false = some e' := by
            simpa [strRun, he', hc1, hc2] using hr
          have hsc : scanStep st c =
              { st with cur := st.cur.map (fun acc => acc ++ [c]) } := by
            simp [scanStep, hs, he', hc1, hc2, ScanState.push]
          rw [hsc]
          rw [ih { st with cur := st.cur.map (fun acc => acc ++ [c]) } e'
            (by simp [hs]) (by simpa [he'] using hr')]
          simp [Option.map_map]
          ext acc
          simp [Function.comp]

theorem scanChars_append (a b : List Char) (s0 : ScanState) :
    scanChars (a ++ b) s0 = scanChars b (scanChars a s0) := by
  rw [scanChars, scanChars, scanChars, List.foldl_append]

theorem scanChars_literal (w : List Char) (st : ScanState)
    (hs : st.in_string = false) (he : st.escape = false)
    (hw : staysInString w = true) :
    scanChars ('"' :: (w ++ ['"'])) st =
      { st with cur := st.cur.map (fun acc => acc ++ ('"' :: (w ++ ['"']))) } := by
  have hw' : strRun w false = some false := by
    unfold staysInString at hw
    exact eq_of_beq hw
  have hsplit : ('"' :: (w ++ ['"'])) = (['"'] ++ w) ++ ['"'] := by simp
  rw [hsplit, scanChars_append, scanChars_append]
  have hq : scanChars ['"'] st =
      { st with in_string := true, cur := st.cur.map (fun acc => acc ++ ['"']) } := by
    simp [scanChars, scanStep, hs, ScanState.push]
  rw [hq]
  rw [scanChars_in_string w
    { st with in_string := true, cur := st.cur.map (fun acc => acc ++ ['"']) } false
    (by simp) (by simpa [he])]
  have hq2 : scanChars ['"']
      { st with in_string := true, cur := (st.cur.map (fun acc => acc ++ ['"'])).map (fun acc => acc ++ w), escape := false } =
      { st with in_string := false, cur := ((st.cur.map (fun acc => acc ++ ['"'])).map (fun acc => acc ++ w)).map (fun acc => acc ++ ['"']), escape := false } := by
    simp [scanChars, scanStep, ScanState.push]
  rw [hq2]
  simp [Option.map_map, hs, he]
  ext acc
  simp [Function.comp]

/-- Claim C6: a well-formed JSON string literal — in particular one whose
interior contains an escaped quote immediately followed by a curly brace —
never perturbs the balanced-block scanner: consuming the literal leaves
depth, string mode and the completed blocks unchanged (it is only appended
to the currently open block), and consequently an object enclosing such a
literal is extracted whole as a single block. -/
theorem claim_C6_string_mode_suppression (w : String)
    (hw : staysInString w.data = true) :
    (∀ st : ScanState, st.in_string = false → st.escape = false →
      scanChars ('"' :: (w.data ++ ['"'])) st =
        { st with cur := st.cur.map (fun acc => acc ++ ('"' :: (w.data ++ ['"']))) }) ∧
    find_json_blocks ("\x7b\"reply\":\"" ++ w ++ "\"\x7d") =
      ["\x7b\"reply\":\"" ++ w ++ "\"\x7d"] := by
  refine ⟨fun st hs he => scanChars_literal w.data st hs he hw, ?_⟩
  have hdata : ("\x7b\"reply\":\"" ++ w ++ "\"\x7d").data =
      ("\x7b\"reply\":" : String).data ++ (('"' :: (w.data ++ ['"'])) ++ ['}']) := by
    rw [String.data_append, String.data_append]
    simp
  unfold find_json_blocks
  rw [hdata, scanChars_append, scanChars_append]
  have h0 : scanChars ("\x7b\"reply\":" : String).data scanInit =
      { blocks := [], cur := some ("\x7b\"reply\":" : String).data, depth := 1, in_string := false, escape := false } := by
    decide
  rw [h0]
  rw [scanChars_literal w.data
    { blocks := [], cur := some ("\x7b\"reply\":" : String).data, depth := 1, in_string := false, escape := false }
    rfl rfl hw]
  have h2 : scanChars ['}']
      { blocks := [], cur := (some ("\x7b\"reply\":" : String).data).map (fun acc => acc ++ ('"' :: (w.data ++ ['"']))), depth := 1, in_string := false, escape := false } =
      { blocks := [("\x7b\"reply\":" : String).data ++ (('"' :: (w.data ++ ['"'])) ++ ['}'])], cur := none, depth := 0, in_string := false, escape := false } := by
    simp [scanChars, scanStep, ScanState.push]
  rw [h2]
  show [String.mk (("\x7b\"reply\":" : String).data ++ (('"' :: (w.data ++ ['"'])) ++ ['}']))] = _
  rw [show String.mk (("\x7b\"reply\":" : String).data ++ (('"' :: (w.data ++ ['"'])) ++ ['}'])) =
      ("\x7b\"reply\":\"" ++ w ++ "\"\x7d") from String.ext (by rw [hdata])]

/-- Concrete instance of claim C6: the literal interior `a\"}b` holds an
escaped quote immediately followed by a closing brace, and the enclosing
object is still extracted as one block. -/
theorem claim_C6_witness :
    staysInString ("a\\\"\x7db" : String).data = true ∧
    find_json_blocks ("\x7b\"reply\":\"" ++ "a\\\"\x7db" ++ "\"\x7d") =
      ["\x7b\"reply\":\"" ++ "a\\\"\x7db" ++ "\"\x7d"] :=
  ⟨by decide, (claim_C6_string_mode_suppression "a\\\"\x7db" (by decide)).2⟩

/-- Bind on a successful `Except` computation. -/
theorem except_bind_ok {α β : Type} (a : α) (f : α → Except String β) :
    (Except.ok a >>= f : Except String β) = f a := rfl

/-- Bind on a failed `Except` computation. -/
theorem except_bind_err {α β : Type} (e : String) (f : α → Except String β) :
    (Except.error e >>= f : Except String β) = Except.error e := rfl

/-- In-place node mutation never changes the id list of the graph. -/
theorem graphSet_keys (g : Graph) (id : String) (f : GNode → GNode) :
    graphKeys (graphSet g id f) = graphKeys g := by
  unfold graphKeys graphSet
  rw [List.map_map]
  have h : (Prod.fst ∘ fun kv : String × GNode =>
      if kv.1 = id then (kv.1, f kv.2) else kv) = Prod.fst := by
    funext kv
    by_cases hk : kv.1 = id <;> simp [hk]
  rw [h]

/-- `setInput` keeps the node's `_meta.title`. -/
theorem nodeTitle_setInput (k : String) (v : PVal) (n : GNode) :
    nodeTitle (setInput k v n) = nodeTitle n := by
  cases n with
  | node t ct ins => cases ins <;> rfl
  | other => rfl


/-- Looking up the mutated id yields the mutated node. -/
theorem graphGet_graphSet_self (g : Graph) (id : String) (f : GNode → GNode) :
    graphGet (graphSet g id f) id = (graphGet g id).map f := by
  induction g with
  | nil => rfl
  | cons kv gs ih =>
    unfold graphGet graphSet at *
    by_cases hk : kv.1 = id
    · simp [List.find?_cons_of_pos, hk]
    · simp only [List.map_cons, if_neg hk]
      rw [List.find?_cons_of_neg _ (by simpa using hk),
        List.find?_cons_of_neg _ (by simpa using hk)]
      exact ih

theorem graphGet_graphSet_ne (g : Graph) (id id' : String) (f : GNode → GNode)
    (h : id' ≠ id) :
    graphGet (graphSet g id f) id' = graphGet g id' := by
  induction g with
  | nil => rfl
  | cons kv gs ih =>
    unfold graphGet graphSet at *
    by_cases hk : kv.1 = id
    · have hk' : ¬(kv.1 = id') := fun he => h (he ▸ hk ▸ rfl)
      simp only [List.map_cons, if_pos hk]
      rw [List.find?_cons_of_neg _ (by simpa using hk'),
        List.find?_cons_of_neg _ (by simpa using hk')]
      exact ih
    · by_cases hk2 : kv.1 = id'
      · simp only [List.map_cons, if_neg hk]
        rw [List.find?_cons_of_pos _ (by simpa using hk2),
          List.find?_cons_of_pos _ (by simpa using hk2)]
      · simp only [List.map_cons, if_neg hk]
        rw [List.find?_cons_of_neg _ (by simpa using hk2),
          List.find?_cons_of_neg _ (by simpa using hk2)]
        exact ih

theorem find_node_graphSet (g : Graph) (id : String) (f : GNode → GNode) (t : String)
    (hf : ∀ n, nodeTitle (f n) = nodeTitle n) :
    find_node_by_title (graphSet g id f) t = find_node_by_title g t := by
  induction g with
  | nil => rfl
  | cons kv gs ih =>
    unfold find_node_by_title graphSet at *
    by_cases hk : kv.1 = id
    · simp only [List.map_cons, if_pos hk, List.findSome?_cons, hf]
      rw [ih]
    · simp only [List.map_cons, if_neg hk, List.findSome?_cons]
      rw [ih]

theorem hasTitle_graphSet (g : Graph) (id : String) (f : GNode → GNode) (t : String)
    (hf : ∀ n, nodeTitle (f n) = nodeTitle n) :
    hasTitle (graphSet g id f) t = hasTitle g t := by
  induction g with
  | nil => rfl
  | cons kv gs ih =>
    unfold hasTitle graphSet at *
    by_cases hk : kv.1 = id
    · simp only [List.map_cons, if_pos hk, List.any_cons, hf]
      rw [ih]
    · simp only [List.map_cons, if_neg hk, List.any_cons]
      rw [ih]

theorem detect_graphSet (g : Graph) (id : String) (f : GNode → GNode)
    (hf : ∀ n, nodeTitle (f n) = nodeTitle n) :
    detect_cliptext_nodes (graphSet g id f) = detect_cliptext_nodes g := by
  unfold detect_cliptext_nodes
  suffices h : ∀ acc : Option String × Option String,
      List.foldl (fun acc kv =>
        if nodeTitle kv.2 = some "__PROMPT_POS__" then (some kv.1, acc.2)
        else if nodeTitle kv.2 = some "__PROMPT_NEG__" then (acc.1, some kv.1)
        else acc) acc (graphSet g id f) =
      List.foldl (fun acc kv =>
        if nodeTitle kv.2 = some "__PROMPT_POS__" then (some kv.1, acc.2)
        else if nodeTitle kv.2 = some "__PROMPT_NEG__" then (acc.1, some kv.1)
        else acc) acc g from h (none, none)
  induction g with
  | nil => intro acc; rfl
  | cons kv gs ih =>
    intro acc
    unfold graphSet at *
    by_cases hk : kv.1 = id
    · simp only [List.map_cons, if_pos hk, List.foldl_cons, hf]
      exact ih _
    · simp only [List.map_cons, if_neg hk, List.foldl_cons]
      exact ih _

theorem find_none_of_hasTitle_false (g : Graph) (t : String)
    (h : hasTitle g t = false) :
    find_node_by_title g t = none := by
  induction g with
  | nil => rfl
  | cons kv gs ih =>
    unfold hasTitle at h
    simp only [List.any_cons, Bool.or_eq_false_iff] at h
    unfold find_node_by_title
    simp only [List.findSome?_cons]
    rw [if_neg (by simpa using h.1)]
    exact ih h.2

theorem detect_fst_none (g : Graph)
    (h : hasTitle g "__PROMPT_POS__" = false) :
    (detect_cliptext_nodes g).1 = none := by
  unfold detect_cliptext_nodes
  suffices hh : ∀ acc : Option String × Option String,
      (List.foldl (fun acc kv =>
        if nodeTitle kv.2 = some "__PROMPT_POS__" then (some kv.1, acc.2)
        else if nodeTitle kv.2 = some "__PROMPT_NEG__" then (acc.1, some kv.1)
        else acc) acc g).1 = acc.1 from hh (none, none)
  induction g with
  | nil => intro acc; rfl
  | cons kv gs ih =>
    intro acc
    unfold hasTitle at h
    simp only [List.any_cons, Bool.or_eq_false_iff] at h
    simp only [List.foldl_cons]
    rw [if_neg (by simpa using h.1)]
    have ih' := ih h.2
    by_cases hneg : nodeTitle kv.2 = some "__PROMPT_NEG__"
    · rw [if_pos hneg]
      exact ih' _
    · rw [if_neg hneg]
      exact ih' _

theorem detect_snd_none (g : Graph)
    (h : hasTitle g "__PROMPT_NEG__" = false) :
    (detect_cliptext_nodes g).2 = none := by
  unfold detect_cliptext_nodes
  suffices hh : ∀ acc : Option String × Option String,
      (List.foldl (fun acc kv =>
        if nodeTitle kv.2 = some "__PROMPT_POS__" then (some kv.1, acc.2)
        else if nodeTitle kv.2 = some "__PROMPT_NEG__" then (acc.1, some kv.1)
        else acc) acc g).2 = acc.2 from hh (none, none)
  induction g with
  | nil => intro acc; rfl
  | cons kv gs ih =>
    intro acc
    unfold hasTitle at h
    simp only [List.any_cons, Bool.or_eq_false_iff] at h
    simp only [List.foldl_cons]
    have ih' := ih h.2
    by_cases hpos : nodeTitle kv.2 = some "__PROMPT_POS__"
    · rw [if_pos hpos]
      exact ih' _
    · rw [if_neg hpos, if_neg (by simpa using h.1)]
      exact ih' _

theorem mapSet_get_self (k : String) (v : PVal) :
    ∀ d : List (String × PVal), dictHas d k = true →
      dictGet (List.map (fun kv => if kv.1 = k then (k, v) else kv) d) k = some v := by
  intro d
  induction d with
  | nil => intro h; simp [dictHas] at h
  | cons kv ds ih =>
    intro h
    by_cases hk : kv.1 = k
    · simp only [List.map_cons, if_pos hk]
      unfold dictGet
      rw [List.find?_cons_of_pos _ (by simp)]
      rfl
    · simp only [List.map_cons, if_neg hk]
      unfold dictGet at ih ⊢
      rw [List.find?_cons_of_neg _ (by simpa using hk)]
      apply ih
      unfold dictHas at h ⊢
      simp only [List.any_cons, Bool.or_eq_true] at h
      rcases h with h1 | h2
      · exact absurd (by simpa using h1) hk
      · exact h2

theorem append_get_self (k : String) (v : PVal) :
    ∀ d : List (String × PVal),
      dictGet (d ++ [(k, v)]) k = some v ∨ dictHas d k = true := by
  intro d
  induction d with
  | nil =>
    left
    unfold dictGet
    rw [List.nil_append, List.find?_cons_of_pos _ (by simp)]
    rfl
  | cons kv ds ih =>
    by_cases hk : kv.1 = k
    · right
      unfold dictHas
      simp [List.any_cons, hk]
    · rcases ih with h1 | h2
      · left
        unfold dictGet at h1 ⊢
        rw [List.cons_append, List.find?_cons_of_neg _ (by simpa using hk)]
        exact h1
      · right
        unfold dictHas at h2 ⊢
        simp [List.any_cons, h2]

theorem mapSet_get_ne (k k' : String) (v : PVal) (h : k' ≠ k) :
    ∀ d : List (String × PVal),
      dictGet (List.map (fun kv => if kv.1 = k then (k, v) else kv) d) k' = dictGet d k' := by
  intro d
  induction d with
  | nil => rfl
  | cons kv ds ih =>
    by_cases hk : kv.1 = k
    · have hne : ¬(kv.1 = k') := fun he => h (he ▸ hk ▸ rfl)
      simp only [List.map_cons, if_pos hk]
      unfold dictGet at ih ⊢
      rw [List.find?_cons_of_neg _ (by simpa using fun he : k = k' => h he.symm),
        List.find?_cons_of_neg _ (by simpa using hne)]
      exact ih
    · simp only [List.map_cons, if_neg hk]
      by_cases hk2 : kv.1 = k'
      · unfold dictGet
        rw [List.find?_cons_of_pos _ (by simpa using hk2),
          List.find?_cons_of_pos _ (by simpa using hk2)]
      · unfold dictGet at ih ⊢
        rw [List.find?_cons_of_neg _ (by simpa using hk2),
          List.find?_cons_of_neg _ (by simpa using hk2)]
        exact ih

theorem append_get_ne (k k' : String) (v : PVal) (h : k' ≠ k) :
    ∀ d : List (String × PVal), dictGet (d ++ [(k, v)]) k' = dictGet d k' := by
  intro d
  induction d with
  | nil =>
    unfold dictGet
    rw [List.nil_append,
      List.find?_cons_of_neg _ (by simpa using fun he : k = k' => h he.symm),
      List.find?_nil]
  | cons kv ds ih =>
    by_cases hk2 : kv.1 = k'
    · unfold dictGet
      rw [List.cons_append, List.find?_cons_of_pos _ (by simpa using hk2),
        List.find?_cons_of_pos _ (by simpa using hk2)]
    · unfold dictGet at ih ⊢
      rw [List.cons_append, List.find?_cons_of_neg _ (by simpa using hk2),
        List.find?_cons_of_neg _ (by simpa using hk2)]
      exact ih

theorem dictGet_dictSet_self (d : List (String × PVal)) (k : String) (v : PVal) :
    dictGet (dictSet d k v) k = some v := by
  unfold dictSet
  by_cases hh : dictHas d k = true
  · rw [if_pos hh]
    exact mapSet_get_self k v d hh
  · rw [if_neg hh]
    rcases append_get_self k v d with h1 | h2
    · exact h1
    · exact absurd h2 hh

theorem dictGet_dictSet_ne (d : List (String × PVal)) (k k' : String) (v : PVal)
    (h : k' ≠ k) :
    dictGet (dictSet d k v) k' = dictGet d k' := by
  unfold dictSet
  by_cases hh : dictHas d k = true
  · rw [if_pos hh]
    exact mapSet_get_ne k k' v h d
  · rw [if_neg hh]
    exact append_get_ne k k' v h d

theorem writeInput_ok_eq (g : Graph) (id k : String) (v : PVal) (g' : Graph)
    (h : writeInput g id k v = Except.ok g') :
    g' = graphSet g id (setInput k v) := by
  unfold writeInput at h
  split at h
  · simp only [Except.ok.injEq] at h
    exact h.symm
  · exact absurd h (by simp)
  · exact absurd h (by simp)

theorem writeInput_keys (g : Graph) (id k : String) (v : PVal) (g' : Graph)
    (h : writeInput g id k v = Except.ok g') :
    graphKeys g' = graphKeys g := by
  rw [writeInput_ok_eq g id k v g' h]
  exact graphSet_keys g id (setInput k v)

theorem writeInput_find (g : Graph) (id k : String) (v : PVal) (g' : Graph) (t : String)
    (h : writeInput g id k v = Except.ok g') :
    find_node_by_title g' t = find_node_by_title g t := by
  rw [writeInput_ok_eq g id k v g' h]
  exact find_node_graphSet g id (setInput k v) t (nodeTitle_setInput k v)

theorem writeInput_hasTitle (g : Graph) (id k : String) (v : PVal) (g' : Graph) (t : String)
    (h : writeInput g id k v = Except.ok g') :
    hasTitle g' t = hasTitle g t := by
  rw [writeInput_ok_eq g id k v g' h]
  exact hasTitle_graphSet g id (setInput k v) t (nodeTitle_setInput k v)

theorem writeInput_get_ne (g : Graph) (id k : String) (v : PVal) (g' : Graph) (id' : String)
    (h : writeInput g id k v = Except.ok g') (hne : id' ≠ id) :
    graphGet g' id' = graphGet g id' := by
  rw [writeInput_ok_eq g id k v g' h]
  exact graphGet_graphSet_ne g id id' (setInput k v) hne

theorem writeInput_ok_of_node (g : Graph) (id k : String) (v : PVal)
    (t ct : String) (d : List (String × PVal))
    (hnode : graphGet g id = some (GNode.node t ct (some d))) :
    writeInput g id k v = Except.ok (graphSet g id (setInput k v)) := by
  unfold writeInput
  rw [hnode]

theorem except_pure_bind {α β : Type} (a : α) (f : α → Except String β) :
    ((pure a : Except String α) >>= f) = f a := rfl

theorem except_throw_bind {α β : Type} (e : String) (f : α → Except String β) :
    ((throw e : Except String α) >>= f) = Except.error e := rfl

theorem patchPositive_keys (g : Graph) (cp : CharacterParams) (ap : String)
    (gp : GenParams) (pid : String) (g' : Graph)
    (h : patchPositive g cp ap gp pid = Except.ok g') :
    graphKeys g' = graphKeys g := by
  unfold patchPositive at h
  dsimp only at h
  split at h
  · rw [except_pure_bind] at h
    exact writeInput_keys _ _ _ _ _ h
  · split at h
    · rw [except_pure_bind] at h
      exact writeInput_keys _ _ _ _ _ h
    · rw [except_throw_bind] at h
      exact absurd h (by simp)

theorem patchNegative_keys (g : Graph) (nid : Option String) (gp : GenParams) (g' : Graph)
    (h : patchNegative g nid gp = Except.ok g') :
    graphKeys g' = graphKeys g := by
  unfold patchNegative at h
  split at h
  · split at h
    · exact writeInput_keys _ _ _ _ _ h
    · simp only [pure, Except.pure, Except.ok.injEq] at h
      rw [← h]
  · simp only [pure, Except.pure, Except.ok.injEq] at h
    rw [← h]

theorem patchLora_keys (g : Graph) (cp : CharacterParams) (g' : Graph)
    (h : patchLora g cp = Except.ok g') :
    graphKeys g' = graphKeys g := by
  unfold patchLora at h
  split at h
  · split at h
    · split at h
      · cases h1 : writeInput g _ "lora_name" (PVal.vstr cp.lora_name) with
        | error e =>
          rw [h1, except_bind_err] at h
          exact absurd h (by simp)
        | ok g1 =>
          rw [h1, except_bind_ok] at h
          cases h2 : writeInput g1 _ "strength_model" (PVal.vrat cp.lora_strength) with
          | error e =>
            rw [h2, except_bind_err] at h
            exact absurd h (by simp)
          | ok g2 =>
            rw [h2, except_bind_ok] at h
            calc graphKeys g' = graphKeys g2 := writeInput_keys _ _ _ _ _ h
              _ = graphKeys g1 := writeInput_keys _ _ _ _ _ h2
              _ = graphKeys g := writeInput_keys _ _ _ _ _ h1
      · cases h1 : writeInput g _ "strength_model" (PVal.vrat 0) with
        | error e =>
          rw [h1, except_bind_err] at h
          exact absurd h (by simp)
        | ok g1 =>
          rw [h1, except_bind_ok] at h
          calc graphKeys g' = graphKeys g1 := writeInput_keys _ _ _ _ _ h
            _ = graphKeys g := writeInput_keys _ _ _ _ _ h1
    · simp only [pure, Except.pure, Except.ok.injEq] at h
      rw [← h]
  · simp only [pure, Except.pure, Except.ok.injEq] at h
    rw [← h]

theorem patchCheckpoint_keys (g : Graph) (gp : GenParams) (g' : Graph)
    (h : patchCheckpoint g gp = Except.ok g') :
    graphKeys g' = graphKeys g := by
  unfold patchCheckpoint at h
  split at h
  · split at h
    · split at h
      · exact writeInput_keys _ _ _ _ _ h
      · simp only [pure, Except.pure, Except.ok.injEq] at h
        rw [← h]
    · simp only [pure, Except.pure, Except.ok.injEq] at h
      rw [← h]
  · simp only [pure, Except.pure, Except.ok.injEq] at h
    rw [← h]

theorem patchSampler_keys (g : Graph) (gp : GenParams) (r : Int) :
    graphKeys (patchSampler g gp r) = graphKeys g := by
  unfold patchSampler
  split
  · split
    · split
      · exact graphSet_keys _ _ _
      · rfl
    · rfl
  · rfl

/-- Claim C9: the patcher operates on a deep copy (the embedding passes the
template by value, mirroring `json.loads(json.dumps(prompt_graph))` at
`workflow_patcher.py` line 47, so the caller's template is never mutated),
and any graph it returns has exactly the same node-id list as the template:
no node is added or removed. -/
theorem claim_C9_template_ids_preserved (g : Graph) (cp : CharacterParams) (ap : String)
    (gp : GenParams) (r : Int) (g' : Graph)
    (h : patch_workflow g cp ap gp r = Except.ok g') :
    graphKeys g' = graphKeys g := by
  unfold patch_workflow at h
  dsimp only at h
  split at h
  · exact absurd h (by simp)
  · rename_i pid hpid
    cases h1 : patchPositive g cp ap gp pid with
    | error e =>
      rw [h1, except_bind_err] at h
      exact absurd h (by simp)
    | ok g1 =>
      rw [h1, except_bind_ok] at h
      cases h2 : patchNegative g1 (detect_cliptext_nodes g).2 gp with
      | error e =>
        rw [h2, except_bind_err] at h
        exact absurd h (by simp)
      | ok g2 =>
        rw [h2, except_bind_ok] at h
        cases h3 : patchLora g2 cp with
        | error e =>
          rw [h3, except_bind_err] at h
          exact absurd h (by simp)
        | ok g3 =>
          rw [h3, except_bind_ok] at h
          cases h4 : patchCheckpoint g3 gp with
          | error e =>
            rw [h4, except_bind_err] at h
            exact absurd h (by simp)
          | ok g4 =>
            rw [h4, except_bind_ok] at h
            simp only [pure, Except.pure, Except.ok.injEq] at h
            calc graphKeys g'
                = graphKeys (patchSampler g4 gp r) := by rw [← h]
              _ = graphKeys g4 := patchSampler_keys _ _ _
              _ = graphKeys g3 := patchCheckpoint_keys _ _ _ h4
              _ = graphKeys g2 := patchLora_keys _ _ _ h3
              _ = graphKeys g1 := patchNegative_keys _ _ _ _ h2
              _ = graphKeys g := patchPositive_keys _ _ _ _ _ _ h1

theorem patchNegative_skip (g : Graph) (gp : GenParams) :
    patchNegative g none gp = Except.ok g := rfl

theorem patchLora_skip (g : Graph) (cp : CharacterParams)
    (h : hasTitle g "__LORA_CHARACTER__" = false) :
    patchLora g cp = Except.ok g := by
  unfold patchLora
  rw [find_none_of_hasTitle_false g _ h]
  rfl

theorem patchCheckpoint_skip (g : Graph) (gp : GenParams)
    (h : hasTitle g "__CHECKPOINT_BASE__" = false) :
    patchCheckpoint g gp = Except.ok g := by
  unfold patchCheckpoint
  split
  · rw [find_none_of_hasTitle_false g _ h]
    rfl
  · rfl

theorem patchSampler_skip (g : Graph) (gp : GenParams) (r : Int)
    (h : hasTitle g "__SAMPLER_MAIN__" = false) :
    patchSampler g gp r = g := by
  unfold patchSampler
  rw [find_none_of_hasTitle_false g _ h]

theorem patchPositive_ok (g : Graph) (cp : CharacterParams) (ap : String)
    (gp : GenParams) (pid tpos ctpos : String) (dpos : List (String × PVal))
    (hnode : graphGet g pid = some (GNode.node tpos ctpos (some dpos)))
    (htext : ∀ val, dictGet dpos "text" = some val → ∃ s, val = PVal.vstr s) :
    ∃ txt, patchPositive g cp ap gp pid =
      Except.ok (graphSet g pid (setInput "text" (PVal.vstr txt))) := by
  unfold patchPositive
  rw [hnode]
  dsimp only
  by_cases hvb : cp.visual_base ≠ ""
  · rw [if_pos hvb, except_pure_bind, writeInput_ok_of_node g pid _ _ tpos ctpos dpos hnode]
    exact ⟨_, rfl⟩
  · rw [if_neg hvb]
    have hcur : ∃ s0, pyOrEmptyStr ((dictGet dpos "text").getD (PVal.vstr "")) =
        PVal.vstr s0 := by
      cases hdg : dictGet dpos "text" with
      | none => exact ⟨"", rfl⟩
      | some val =>
        obtain ⟨s, rfl⟩ := htext val hdg
        simp only [Option.getD_some]
        unfold pyOrEmptyStr
        by_cases hf : pyFalsyPVal (PVal.vstr s) = true
        · exact ⟨"", by rw [if_pos hf]⟩
        · exact ⟨s, by rw [if_neg hf]⟩
    obtain ⟨s0, hs0⟩ := hcur
    rw [hs0]
    dsimp only
    rw [except_pure_bind, writeInput_ok_of_node g pid _ _ tpos ctpos dpos hnode]
    exact ⟨_, rfl⟩

theorem dictGet_guardSet_ne (d : List (String × PVal)) (c : Bool) (k k' : String)
    (v : PVal) (h : k' ≠ k) :
    dictGet (if c then dictSet d k v else d) k' = dictGet d k' := by
  cases c with
  | true => rw [if_pos rfl]; exact dictGet_dictSet_ne d k k' v h
  | false => rw [if_neg (by simp)]

theorem patchSampler_seed (g : Graph) (gp : GenParams) (r : Int)
    (sid tsmp ctsmp : String) (dsmp : List (String × PVal))
    (hfind : find_node_by_title g "__SAMPLER_MAIN__" = some sid)
    (hsid : sid ≠ "")
    (hget : graphGet g sid = some (GNode.node tsmp ctsmp (some dsmp)))
    (hclass : ctsmp = "KSampler" ∨ ctsmp = "KSamplerAdvanced")
    (hseed : dictHas dsmp "seed" = true) :
    seedInputOf (patchSampler g gp r) sid =
      some (PVal.vint (resolveSeed gp.seed r)) := by
  have hcond : sid ≠ "" ∧ (nodeClassType (graphGet g sid) = some "KSampler" ∨
      nodeClassType (graphGet g sid) = some "KSamplerAdvanced") := by
    refine ⟨hsid, ?_⟩
    rw [hget]
    rcases hclass with h | h
    · left; rw [show nodeClassType (some (GNode.node tsmp ctsmp (some dsmp))) =
        some ctsmp from rfl, h]
    · right; rw [show nodeClassType (some (GNode.node tsmp ctsmp (some dsmp))) =
        some ctsmp from rfl, h]
  unfold patchSampler
  rw [hfind]
  dsimp only
  rw [if_pos hcond, hget]
  dsimp only
  unfold seedInputOf
  rw [graphGet_graphSet_self, hget]
  simp only [Option.map_some']
  rw [dictGet_guardSet_ne _ _ _ _ _ (by decide),
    dictGet_guardSet_ne _ _ _ _ _ (by decide),
    dictGet_guardSet_ne _ _ _ _ _ (by decide),
    dictGet_guardSet_ne _ _ _ _ _ (by decide)]
  rw [if_pos hseed]
  exact dictGet_dictSet_self _ _ _

theorem patchSampler_fixed (g : Graph) (gp : GenParams) (r r' : Int) (s : Int)
    (h : gp.seed = some s) :
    patchSampler g gp r = patchSampler g gp r' := by
  unfold patchSampler
  rw [h]
  simp only [resolveSeed]

theorem patch_workflow_fixed (g : Graph) (cp : CharacterParams) (ap : String)
    (gp : GenParams) (r r' : Int) (s : Int) (h : gp.seed = some s) :
    patch_workflow g cp ap gp r = patch_workflow g cp ap gp r' := by
  unfold patch_workflow
  dsimp only
  split
  · rfl
  · simp only [show ∀ g0 : Graph, patchSampler g0 gp r = patchSampler g0 gp r' from
      fun g0 => patchSampler_fixed g0 gp r r' s h]

theorem patch_workflow_success (g : Graph) (cp : CharacterParams) (ap : String)
    (gp : GenParams) (r : Int) (pid tpos ctpos : String) (dpos : List (String × PVal))
    (hdet : (detect_cliptext_nodes g).1 = some pid)
    (hnode : graphGet g pid = some (GNode.node tpos ctpos (some dpos)))
    (htext : ∀ val, dictGet dpos "text" = some val → ∃ s, val = PVal.vstr s)
    (hneg : hasTitle g "__PROMPT_NEG__" = false)
    (hlora : hasTitle g "__LORA_CHARACTER__" = false)
    (hckpt : hasTitle g "__CHECKPOINT_BASE__" = false) :
    ∃ txt, patch_workflow g cp ap gp r =
      Except.ok (patchSampler
        (graphSet g pid (setInput "text" (PVal.vstr txt))) gp r) := by
  obtain ⟨txt, hpos⟩ := patchPositive_ok g cp ap gp pid tpos ctpos dpos hnode htext
  refine ⟨txt, ?_⟩
  unfold patch_workflow
  dsimp only
  rw [hdet]
  dsimp only
  rw [hpos, except_bind_ok, detect_snd_none g hneg, patchNegative_skip, except_bind_ok]
  rw [patchLora_skip _ cp
    (by rw [hasTitle_graphSet g pid _ _ (nodeTitle_setInput _ _)]; exact hlora),
    except_bind_ok]
  rw [patchCheckpoint_skip _ gp
    (by rw [hasTitle_graphSet g pid _ _ (nodeTitle_setInput _ _)]; exact hckpt),
    except_bind_ok]
  rfl

/-- Claim C8: a template with no `__PROMPT_POS__` node makes
`patch_workflow` raise the missing-required-node error and return no graph;
a template that has a (well-formed) `__PROMPT_POS__` node and none of the
other four marker nodes is patched without raising. -/
theorem claim_C8_missing_pos_node_hard_failure :
    (∀ (g : Graph) (cp : CharacterParams) (ap : String) (gp : GenParams) (r : Int),
      hasTitle g "__PROMPT_POS__" = false →
      patch_workflow g cp ap gp r = Except.error "No __PROMPT_POS__ node found.") ∧
    (∀ (g : Graph) (cp : CharacterParams) (ap : String) (gp : GenParams) (r : Int)
      (pid tpos ctpos : String) (dpos : List (String × PVal)),
      (detect_cliptext_nodes g).1 = some pid →
      graphGet g pid = some (GNode.node tpos ctpos (some dpos)) →
      (∀ val, dictGet dpos "text" = some val → ∃ s, val = PVal.vstr s) →
      hasTitle g "__PROMPT_NEG__" = false →
      hasTitle g "__LORA_CHARACTER__" = false →
      hasTitle g "__CHECKPOINT_BASE__" = false →
      hasTitle g "__SAMPLER_MAIN__" = false →
      ∃ g', patch_workflow g cp ap gp r = Except.ok g') := by
  constructor
  · intro g cp ap gp r h
    unfold patch_workflow
    dsimp only
    rw [detect_fst_none g h]
    rfl
  · intro g cp ap gp r pid tpos ctpos dpos hdet hnode htext hneg hlora hckpt hsmp
    obtain ⟨txt, hp⟩ :=
      patch_workflow_success g cp ap gp r pid tpos ctpos dpos hdet hnode htext
        hneg hlora hckpt
    exact ⟨_, hp⟩

/-- Claim C10: in the sampler patching step, a fixed `params.seed` is
written verbatim into the `__SAMPLER_MAIN__` node's `seed` input and two
invocations with the same inputs produce identical results regardless of
the random draw; with `params.seed = None` the freshly drawn value
(`random.randint(1, 2**31 - 1)`, passed as `freshSeed`) is written, in
range `[1, 2^31 - 1]`, independently on each invocation. -/
theorem claim_C10_sampler_seed (g : Graph) (cp : CharacterParams) (ap : String) (gp : GenParams)
    (pid ctpos : String) (dpos : List (String × PVal))
    (sid ctsmp : String) (dsmp : List (String × PVal))
    (hdet : (detect_cliptext_nodes g).1 = some pid)
    (hnode : graphGet g pid = some (GNode.node "__PROMPT_POS__" ctpos (some dpos)))
    (htext : ∀ val, dictGet dpos "text" = some val → ∃ s, val = PVal.vstr s)
    (hneg : hasTitle g "__PROMPT_NEG__" = false)
    (hlora : hasTitle g "__LORA_CHARACTER__" = false)
    (hckpt : hasTitle g "__CHECKPOINT_BASE__" = false)
    (hfind : find_node_by_title g "__SAMPLER_MAIN__" = some sid)
    (hsid : sid ≠ "")
    (hget : graphGet g sid = some (GNode.node "__SAMPLER_MAIN__" ctsmp (some dsmp)))
    (hclass : ctsmp = "KSampler" ∨ ctsmp = "KSamplerAdvanced")
    (hseed : dictHas dsmp "seed" = true) :
    (∀ s r : Int, gp.seed = some s →
      ∃ g', patch_workflow g cp ap gp r = Except.ok g' ∧
        seedInputOf g' sid = some (PVal.vint s)) ∧
    (∀ r r' s : Int, gp.seed = some s →
      patch_workflow g cp ap gp r = patch_workflow g cp ap gp r') ∧
    (∀ r : Int, gp.seed = none → 1 ≤ r → r ≤ 2 ^ 31 - 1 →
      ∃ g', patch_workflow g cp ap gp r = Except.ok g' ∧
        seedInputOf g' sid = some (PVal.vint r) ∧ 1 ≤ r ∧ r ≤ 2 ^ 31 - 1) := by
  have hps : sid ≠ pid := by
    intro he
    rw [he, hnode] at hget
    simp at hget
  have main : ∀ r : Int, ∃ g', patch_workflow g cp ap gp r = Except.ok g' ∧
      seedInputOf g' sid = some (PVal.vint (resolveSeed gp.seed r)) := by
    intro r
    obtain ⟨txt, hp⟩ :=
      patch_workflow_success g cp ap gp r pid _ ctpos dpos hdet hnode htext
        hneg hlora hckpt
    refine ⟨_, hp, ?_⟩
    apply patchSampler_seed _ gp r sid "__SAMPLER_MAIN__" ctsmp dsmp
    · rw [find_node_graphSet g pid _ _ (nodeTitle_setInput _ _)]
      exact hfind
    · exact hsid
    · rw [graphGet_graphSet_ne g pid sid _ hps]
      exact hget
    · exact hclass
    · exact hseed
  refine ⟨?_, ?_, ?_⟩
  · intro s r hs
    obtain ⟨g', h1, h2⟩ := main r
    rw [hs] at h2
    exact ⟨g', h1, h2⟩
  · intro r r' s hs
    exact patch_workflow_fixed g cp ap gp r r' s hs
  · intro r hs h1 h2
    obtain ⟨g', hg1, hg2⟩ := main r
    rw [hs] at hg2
    exact ⟨g', hg1, hg2, h1, h2⟩

/-- Concrete instances of claim C8: a pos-less template errors, a template
with only a positive-prompt node patches successfully. -/
theorem claim_C8_witness :
    hasTitle sampleGraphNoPos "__PROMPT_POS__" = false ∧
    patch_workflow sampleGraphNoPos {} "" {} 1 =
      Except.error "No __PROMPT_POS__ node found." ∧
    (∃ g', patch_workflow sampleGraphPos {} "" {} 1 = Except.ok g') :=
  ⟨by decide,
    claim_C8_missing_pos_node_hard_failure.1 sampleGraphNoPos {} "" {} 1 (by decide),
    claim_C8_missing_pos_node_hard_failure.2 sampleGraphPos {} "" {} 1 "6"
      "__PROMPT_POS__" "CLIPTextEncode" [("text", PVal.vstr "base prompt")]
      (by decide) (by decide)
      (fun val hv => ⟨"base prompt", (Option.some.inj hv).symm⟩)
      (by decide) (by decide) (by decide) (by decide)⟩

/-- Concrete instance of claim C9: patching the sample template yields a
graph with the same node ids. -/
theorem claim_C9_witness :
    ∃ g', patch_workflow sampleGraphPosSampler {} "" {} 5 = Except.ok g' ∧
      graphKeys g' = graphKeys sampleGraphPosSampler :=
  ⟨[("3", GNode.node "__SAMPLER_MAIN__" "KSampler"
      (some [("seed", PVal.vint 5), ("steps", PVal.vint 8)])),
    ("6", GNode.node "__PROMPT_POS__" "CLIPTextEncode"
      (some [("text",
        PVal.vstr "masterpiece, best quality, high quality, detailed, base prompt")]))],
    rfl,
    claim_C9_template_ids_preserved sampleGraphPosSampler {} "" {} 5 _ rfl⟩

/-- Concrete instances of claim C10: a fixed seed 42 is written verbatim; a
random draw 5 is written when the seed is null. -/
theorem claim_C10_witness :
    (∃ g', patch_workflow sampleGraphPosSampler {} "" { seed := some 42 } 7 =
        Except.ok g' ∧ seedInputOf g' "3" = some (PVal.vint 42)) ∧
    (∃ g', patch_workflow sampleGraphPosSampler {} "" {} 5 = Except.ok g' ∧
      seedInputOf g' "3" = some (PVal.vint 5) ∧ (1 : Int) ≤ 5 ∧
        (5 : Int) ≤ 2 ^ 31 - 1) :=
  ⟨(claim_C10_sampler_seed sampleGraphPosSampler {} "" { seed := some 42 } "6"
      "CLIPTextEncode" [("text", PVal.vstr "base prompt")] "3" "KSampler"
      [("seed", PVal.vint 0), ("steps", PVal.vint 20)]
      (by decide) (by decide)
      (fun val hv => ⟨"base prompt", (Option.some.inj hv).symm⟩)
      (by decide) (by decide) (by decide) (by decide) (by decide) (by decide)
      (Or.inl rfl) (by decide)).1 42 7 rfl,
   (claim_C10_sampler_seed sampleGraphPosSampler {} "" {} "6"
      "CLIPTextEncode" [("text", PVal.vstr "base prompt")] "3" "KSampler"
      [("seed", PVal.vint 0), ("steps", PVal.vint 20)]
      (by decide) (by decide)
      (fun val hv => ⟨"base prompt", (Option.some.inj hv).symm⟩)
      (by decide) (by decide) (by decide) (by decide) (by decide) (by decide)
      (Or.inl rfl) (by decide)).2.2 5 rfl (by decide) (by decide)⟩
